import Mathlib

/-!
Shallow embedding of the pymia evaluation-metric core
(`src/pymia/evaluation/metric/base.py`) and of the voxel-wise indexing
strategy (`src/miapy/data/extraction/indexing.py`).

Conventions of the embedding:
* numpy label volumes are `LVol` (dimensions plus an integer-valued entry
  function); binary masks are `Mask` (Boolean entries).  Reads outside the
  stored bounds return the zero value, matching numpy's `mode="constant",
  cval=0` boundary handling where the code relies on it.
* Floating point values produced by `np.linalg.norm` and
  `distance_transform_edt` are modelled as real numbers; the float `inf`
  sentinel (`np.Inf`) is `⊤` in `WithTop ℝ`.
* Python's `sorted` on `(distance, area)` tuples is modelled by
  `List.mergeSort` under the lexicographic order: for a total order the
  sorted permutation of a list is unique as a list of values, so this is
  value-for-value the same result.
* `Distances.__init__` sets the four attributes to `None`, then calls
  `_calculate`, whose early branch *returns* a dict (which `__init__`
  discards) while the normal branch assigns the attributes.  The state of
  the constructed object is `DistancesState` (each attribute an `Option`,
  `none` being Python's `None`), and `CalcResult` records which branch
  `_calculate` took and the value it produced.
-/

namespace Pymia

/-! ## Label volumes and numpy broadcasting (for `ConfusionMatrix`) -/

/-- A 3-D numpy array of integer labels: three dimensions and an entry
function.  Entries are only ever read at indices below the dimensions. -/
structure LVol where
  n0 : ℕ
  n1 : ℕ
  n2 : ℕ
  data : ℕ → ℕ → ℕ → ℤ

/-- Shape tuple of the volume. -/
def LVol.dims (v : LVol) : ℕ × ℕ × ℕ := (v.n0, v.n1, v.n2)

/-- Total voxel count, numpy's `arr.size`. -/
def LVol.size (v : LVol) : ℕ := v.n0 * v.n1 * v.n2

/-- Numpy broadcasting of one axis: equal extents, or one of them 1. -/
def bcastAxis (a b : ℕ) : Option ℕ :=
  if a = b then some a else if a = 1 then some b else if b = 1 then some a else none

/-- Numpy broadcasting of two 3-D shapes; `none` is the `ValueError`
numpy raises for incompatible shapes. -/
def bcastDims (a b : ℕ × ℕ × ℕ) : Option (ℕ × ℕ × ℕ) :=
  match bcastAxis a.1 b.1, bcastAxis a.2.1 b.2.1, bcastAxis a.2.2 b.2.2 with
  | some x, some y, some z => some (x, y, z)
  | _, _, _ => none

/-- Reading a voxel of a volume broadcast to a larger shape: an axis of
extent 1 is read at index 0. -/
def LVol.bget (v : LVol) (i j k : ℕ) : ℤ :=
  v.data (if v.n0 = 1 then 0 else i) (if v.n1 = 1 then 0 else j) (if v.n2 = 1 then 0 else k)

/-- The five scalars of `ConfusionMatrix` (base.py lines 11-26). -/
structure ConfusionMatrix where
  tp : ℕ
  tn : ℕ
  fp : ℕ
  fn : ℕ
  n : ℕ
  deriving DecidableEq

/-- All voxel positions of a shape, as a finite set. -/
def voxFinset (d : ℕ × ℕ × ℕ) : Finset (ℕ × ℕ × ℕ) :=
  Finset.range d.1 ×ˢ Finset.range d.2.1 ×ˢ Finset.range d.2.2

/-- Number of voxel positions of shape `d` satisfying `p`; this is numpy's
`np.sum` over an elementwise Boolean array. -/
def countVox (d : ℕ × ℕ × ℕ) (p : ℕ × ℕ × ℕ → Bool) : ℕ :=
  ((voxFinset d).filter fun v => p v).card

/-- Construction of a `ConfusionMatrix` (base.py lines 14-26): four
elementwise counts over the broadcast arrays (numpy raises when the two
shapes are not broadcast-compatible - the constructor itself performs no
shape validation), and `n = prediction.size`. -/
def mkConfusionMatrix (prediction label : LVol) : Except String ConfusionMatrix :=
  match bcastDims prediction.dims label.dims with
  | none => Except.error "operands could not be broadcast together"
  | some d => Except.ok
      { tp := countVox d fun v =>
          prediction.bget v.1 v.2.1 v.2.2 == 1 && label.bget v.1 v.2.1 v.2.2 == 1
        tn := countVox d fun v =>
          prediction.bget v.1 v.2.1 v.2.2 == 0 && label.bget v.1 v.2.1 v.2.2 == 0
        fp := countVox d fun v =>
          prediction.bget v.1 v.2.1 v.2.2 == 1 && label.bget v.1 v.2.1 v.2.2 == 0
        fn := countVox d fun v =>
          prediction.bget v.1 v.2.1 v.2.2 == 0 && label.bget v.1 v.2.1 v.2.2 == 1
        n := prediction.size }

/-- A volume whose stored entries are all 0 or 1 (a binary indicator
volume, the spec's `BinaryVolume`). -/
def binaryVol (v : LVol) : Bool :=
  (List.range v.n0).all fun i => (List.range v.n1).all fun j => (List.range v.n2).all fun k =>
    v.data i j k == 0 || v.data i j k == 1

/-! ## Binary masks for the `Distances` pipeline -/

/-- A 3-D binary mask.  `data` is only meaningful below the bounds; all
reads go through `Mask.val`, which zero-fills outside. -/
structure Mask where
  n0 : ℕ
  n1 : ℕ
  n2 : ℕ
  data : ℕ → ℕ → ℕ → Bool

/-- Shape tuple of the mask. -/
def Mask.dims (m : Mask) : ℕ × ℕ × ℕ := (m.n0, m.n1, m.n2)

/-- Bounds-checked read: background (`false`) outside the volume. -/
def Mask.val (m : Mask) (i j k : ℕ) : Bool :=
  if i < m.n0 ∧ j < m.n1 ∧ k < m.n2 then m.data i j k else false

/-- Integer-indexed read with zero fill for negative indices, the
`mode="constant", cval=0` behaviour of `ndimage.correlate`. -/
def Mask.valZ (m : Mask) (i j k : ℤ) : Bool :=
  if 0 ≤ i ∧ 0 ≤ j ∧ 0 ≤ k then m.val i.toNat j.toNat k.toNat else false

/-- Elementwise union `ground_truth_arr | segmentation_arr` (base.py line
331); the two masks have equal shape by the data-model contract. -/
def unionMask (segmentation ground_truth : Mask) : Mask :=
  ⟨ground_truth.n0, ground_truth.n1, ground_truth.n2,
    fun i j k => ground_truth.val i j k || segmentation.val i j k⟩

/-- Maximum projection to the first axis (base.py line 336): entry `i` is
non-zero iff some voxel of slice `i` is foreground. -/
def proj0 (m : Mask) (i : ℕ) : Bool :=
  (List.range m.n1).any fun j => (List.range m.n2).any fun k => m.val i j k

/-- Maximum projection to the second axis (base.py line 348). -/
def proj1 (m : Mask) (j : ℕ) : Bool :=
  (List.range m.n0).any fun i => (List.range m.n2).any fun k => m.val i j k

/-- Maximum projection to the third axis (base.py line 354). -/
def proj2 (m : Mask) (k : ℕ) : Bool :=
  (List.range m.n0).any fun i => (List.range m.n1).any fun j => m.val i j k

/-- Indices of the non-zero entries of the first-axis projection
(`np.nonzero(proj_0)[0]`), in ascending order. -/
def idxNonzero0 (m : Mask) : List ℕ := (List.range m.n0).filter (proj0 m)

/-- Indices of the non-zero entries of the second-axis projection. -/
def idxNonzero1 (m : Mask) : List ℕ := (List.range m.n1).filter (proj1 m)

/-- Indices of the non-zero entries of the third-axis projection. -/
def idxNonzero2 (m : Mask) : List ℕ := (List.range m.n2).filter (proj2 m)

/-- The per-axis bounding box `[min, max]` of the union mask (base.py
lines 344-357).  `np.min` of an ascending non-empty index list is its
head, `np.max` its last element; the defaults are never reached on the
non-empty path. -/
def bboxMin (u : Mask) : ℕ × ℕ × ℕ :=
  ((idxNonzero0 u).headD 0, (idxNonzero1 u).headD 0, (idxNonzero2 u).headD 0)

/-- Upper corner of the bounding box, `np.max` of each index list. -/
def bboxMax (u : Mask) : ℕ × ℕ × ℕ :=
  ((idxNonzero0 u).getLastD 0, (idxNonzero1 u).getLastD 0, (idxNonzero2 u).getLastD 0)

/-- Shape `(bbox_max - bbox_min) + 2` of the cropped, zero-padded
subvolume (base.py lines 363-364). -/
def cropDims (u : Mask) : ℕ × ℕ × ℕ :=
  ((bboxMax u).1 - (bboxMin u).1 + 2,
   (bboxMax u).2.1 - (bboxMin u).2.1 + 2,
   (bboxMax u).2.2 - (bboxMin u).2.2 + 2)

/-- Crop `m` to the bounding box of the union mask `u` and zero-pad by one
voxel at the upper end of each axis (base.py lines 363-372): the slice
`[0:-1, 0:-1, 0:-1]` of the zero array receives the cropped volume. -/
def cropPad (m u : Mask) : Mask :=
  ⟨(cropDims u).1, (cropDims u).2.1, (cropDims u).2.2,
    fun i j k =>
      if i < (cropDims u).1 - 1 ∧ j < (cropDims u).2.1 - 1 ∧ k < (cropDims u).2.2 - 1 then
        m.val ((bboxMin u).1 + i) ((bboxMin u).2.1 + j) ((bboxMin u).2.2 + k)
      else false⟩

/-- Bool to ℕ, for weighting mask entries in the correlation. -/
def b2n (b : Bool) : ℕ := if b then 1 else 0

/-- The neighbour code of an output position: correlation with the 2×2×2
kernel `[[[128,64],[32,16]],[[8,4],[2,1]]]` (base.py lines 378-385).  For
a kernel of extent 2 `scipy.ndimage.correlate` centres it at offset 1, so
output position `(i,j,k)` sums kernel weight `(a,b,c)` times the input at
`(i+a-1, j+b-1, k+c-1)`, with zero fill outside. -/
def ncode (m : Mask) (i j k : ℕ) : ℕ :=
  128 * b2n (m.valZ ((i : ℤ) - 1) ((j : ℤ) - 1) ((k : ℤ) - 1)) +
  64 * b2n (m.valZ ((i : ℤ) - 1) ((j : ℤ) - 1) (k : ℤ)) +
  32 * b2n (m.valZ ((i : ℤ) - 1) (j : ℤ) ((k : ℤ) - 1)) +
  16 * b2n (m.valZ ((i : ℤ) - 1) (j : ℤ) (k : ℤ)) +
  8 * b2n (m.valZ (i : ℤ) ((j : ℤ) - 1) ((k : ℤ) - 1)) +
  4 * b2n (m.valZ (i : ℤ) ((j : ℤ) - 1) (k : ℤ)) +
  2 * b2n (m.valZ (i : ℤ) (j : ℤ) ((k : ℤ) - 1)) +
  1 * b2n (m.valZ (i : ℤ) (j : ℤ) (k : ℤ))

/-- A surface voxel: neighbour code neither 0 nor 255 (base.py lines
388-390). -/
def isBorder (m : Mask) (v : ℕ × ℕ × ℕ) : Bool :=
  ncode m v.1 v.2.1 v.2.2 != 0 && ncode m v.1 v.2.1 v.2.2 != 255

/-- All positions of a shape in row-major (C) order, the order in which
numpy Boolean indexing enumerates a volume. -/
def positionsList (d : ℕ × ℕ × ℕ) : List (ℕ × ℕ × ℕ) :=
  (List.range d.1).flatMap fun i =>
    (List.range d.2.1).flatMap fun j =>
      (List.range d.2.2).map fun k => (i, j, k)

/-- The surface-voxel positions of a mask in row-major order
(`borders_gt` / `borders_pred` as an index list). -/
def borderList (m : Mask) : List (ℕ × ℕ × ℕ) :=
  (positionsList (m.n0, m.n1, m.n2)).filter (isBorder m)


/-! ## The neighbour-normal table and the distance pipeline -/

set_option maxHeartbeats 1000000 in
/-- Entries 0-63 of `_neighbour_code_to_normals`. -/
def neighbourNormalsA : List (List (ℝ × ℝ × ℝ)) := [
[(0, 0, 0)],
  [(0.125, 0.125, 0.125)],
  [(-0.125, -0.125, 0.125)],
  [(-0.25, -0.25, 0.0), (0.25, 0.25, -0.0)],
  [(0.125, -0.125, 0.125)],
  [(-0.25, -0.0, -0.25), (0.25, 0.0, 0.25)],
  [(0.125, -0.125, 0.125), (-0.125, -0.125, 0.125)],
  [(0.5, 0.0, -0.0), (0.25, 0.25, 0.25), (0.125, 0.125, 0.125)],
  [(-0.125, 0.125, 0.125)],
  [(0.125, 0.125, 0.125), (-0.125, 0.125, 0.125)],
  [(-0.25, 0.0, 0.25), (-0.25, 0.0, 0.25)],
  [(0.5, 0.0, 0.0), (-0.25, -0.25, 0.25), (-0.125, -0.125, 0.125)],
  [(0.25, -0.25, 0.0), (0.25, -0.25, 0.0)],
  [(0.5, 0.0, 0.0), (0.25, -0.25, 0.25), (-0.125, 0.125, -0.125)],
  [(-0.5, 0.0, 0.0), (-0.25, 0.25, 0.25), (-0.125, 0.125, 0.125)],
  [(0.5, 0.0, 0.0), (0.5, 0.0, 0.0)],
  [(0.125, -0.125, -0.125)],
  [(0.0, -0.25, -0.25), (0.0, 0.25, 0.25)],
  [(-0.125, -0.125, 0.125), (0.125, -0.125, -0.125)],
  [(0.0, -0.5, 0.0), (0.25, 0.25, 0.25), (0.125, 0.125, 0.125)],
  [(0.125, -0.125, 0.125), (0.125, -0.125, -0.125)],
  [(0.0, 0.0, -0.5), (0.25, 0.25, 0.25), (-0.125, -0.125, -0.125)],
  [(-0.125, -0.125, 0.125), (0.125, -0.125, 0.125), (0.125, -0.125, -0.125)],
  [(-0.125, -0.125, -0.125), (-0.25, -0.25, -0.25), (0.25, 0.25, 0.25), (0.125, 0.125, 0.125)],
  [(-0.125, 0.125, 0.125), (0.125, -0.125, -0.125)],
  [(0.0, -0.25, -0.25), (0.0, 0.25, 0.25), (-0.125, 0.125, 0.125)],
  [(-0.25, 0.0, 0.25), (-0.25, 0.0, 0.25), (0.125, -0.125, -0.125)],
  [(0.125, 0.125, 0.125), (0.375, 0.375, 0.375), (0.0, -0.25, 0.25), (-0.25, 0.0, 0.25)],
  [(0.125, -0.125, -0.125), (0.25, -0.25, 0.0), (0.25, -0.25, 0.0)],
  [(0.375, 0.375, 0.375), (0.0, 0.25, -0.25), (-0.125, -0.125, -0.125), (-0.25, 0.25, 0.0)],
  [(-0.5, 0.0, 0.0), (-0.125, -0.125, -0.125), (-0.25, -0.25, -0.25), (0.125, 0.125, 0.125)],
  [(-0.5, 0.0, 0.0), (-0.125, -0.125, -0.125), (-0.25, -0.25, -0.25)],
  [(0.125, -0.125, 0.125)],
  [(0.125, 0.125, 0.125), (0.125, -0.125, 0.125)],
  [(0.0, -0.25, 0.25), (0.0, 0.25, -0.25)],
  [(0.0, -0.5, 0.0), (0.125, 0.125, -0.125), (0.25, 0.25, -0.25)],
  [(0.125, -0.125, 0.125), (0.125, -0.125, 0.125)],
  [(0.125, -0.125, 0.125), (-0.25, -0.0, -0.25), (0.25, 0.0, 0.25)],
  [(0.0, -0.25, 0.25), (0.0, 0.25, -0.25), (0.125, -0.125, 0.125)],
  [(-0.375, -0.375, 0.375), (-0.0, 0.25, 0.25), (0.125, 0.125, -0.125), (-0.25, -0.0, -0.25)],
  [(-0.125, 0.125, 0.125), (0.125, -0.125, 0.125)],
  [(0.125, 0.125, 0.125), (0.125, -0.125, 0.125), (-0.125, 0.125, 0.125)],
  [(-0.0, 0.0, 0.5), (-0.25, -0.25, 0.25), (-0.125, -0.125, 0.125)],
  [(0.25, 0.25, -0.25), (0.25, 0.25, -0.25), (0.125, 0.125, -0.125), (-0.125, -0.125, 0.125)],
  [(0.125, -0.125, 0.125), (0.25, -0.25, 0.0), (0.25, -0.25, 0.0)],
  [(0.5, 0.0, 0.0), (0.25, -0.25, 0.25), (-0.125, 0.125, -0.125), (0.125, -0.125, 0.125)],
  [(0.0, 0.25, -0.25), (0.375, -0.375, -0.375), (-0.125, 0.125, 0.125), (0.25, 0.25, 0.0)],
  [(-0.5, 0.0, 0.0), (-0.25, -0.25, 0.25), (-0.125, -0.125, 0.125)],
  [(0.25, -0.25, 0.0), (-0.25, 0.25, 0.0)],
  [(0.0, 0.5, 0.0), (-0.25, 0.25, 0.25), (0.125, -0.125, -0.125)],
  [(0.0, 0.5, 0.0), (0.125, -0.125, 0.125), (-0.25, 0.25, -0.25)],
  [(0.0, 0.5, 0.0), (0.0, -0.5, 0.0)],
  [(0.25, -0.25, 0.0), (-0.25, 0.25, 0.0), (0.125, -0.125, 0.125)],
  [(-0.375, -0.375, -0.375), (-0.25, 0.0, 0.25), (-0.125, -0.125, -0.125), (-0.25, 0.25, 0.0)],
  [(0.125, 0.125, 0.125), (0.0, -0.5, 0.0), (-0.25, -0.25, -0.25), (-0.125, -0.125, -0.125)],
  [(0.0, -0.5, 0.0), (-0.25, -0.25, -0.25), (-0.125, -0.125, -0.125)],
  [(-0.125, 0.125, 0.125), (0.25, -0.25, 0.0), (-0.25, 0.25, 0.0)],
  [(0.0, 0.5, 0.0), (0.25, 0.25, -0.25), (-0.125, -0.125, 0.125), (-0.125, -0.125, 0.125)],
  [(-0.375, 0.375, -0.375), (-0.25, -0.25, 0.0), (-0.125, 0.125, -0.125), (-0.25, 0.0, 0.25)],
  [(0.0, 0.5, 0.0), (0.25, 0.25, -0.25), (-0.125, -0.125, 0.125)],
  [(0.25, -0.25, 0.0), (-0.25, 0.25, 0.0), (0.25, -0.25, 0.0), (0.25, -0.25, 0.0)],
  [(-0.25, -0.25, 0.0), (-0.25, -0.25, 0.0), (-0.125, -0.125, 0.125)],
  [(0.125, 0.125, 0.125), (-0.25, -0.25, 0.0), (-0.25, -0.25, 0.0)],
  [(-0.25, -0.25, 0.0), (-0.25, -0.25, 0.0)]]

set_option maxHeartbeats 1000000 in
/-- Entries 64-127 of `_neighbour_code_to_normals`. -/
def neighbourNormalsB : List (List (ℝ × ℝ × ℝ)) := [
  [(-0.125, -0.125, 0.125)],
  [(0.125, 0.125, 0.125), (-0.125, -0.125, 0.125)],
  [(-0.125, -0.125, 0.125), (-0.125, -0.125, 0.125)],
  [(-0.125, -0.125, 0.125), (-0.25, -0.25, 0.0), (0.25, 0.25, -0.0)],
  [(0.0, -0.25, 0.25), (0.0, -0.25, 0.25)],
  [(0.0, 0.0, 0.5), (0.25, -0.25, 0.25), (0.125, -0.125, 0.125)],
  [(0.0, -0.25, 0.25), (0.0, -0.25, 0.25), (-0.125, -0.125, 0.125)],
  [(0.375, -0.375, 0.375), (0.0, -0.25, -0.25), (-0.125, 0.125, -0.125), (0.25, 0.25, 0.0)],
  [(-0.125, -0.125, 0.125), (-0.125, 0.125, 0.125)],
  [(0.125, 0.125, 0.125), (-0.125, -0.125, 0.125), (-0.125, 0.125, 0.125)],
  [(-0.125, -0.125, 0.125), (-0.25, 0.0, 0.25), (-0.25, 0.0, 0.25)],
  [(0.5, 0.0, 0.0), (-0.25, -0.25, 0.25), (-0.125, -0.125, 0.125), (-0.125, -0.125, 0.125)],
  [(-0.0, 0.5, 0.0), (-0.25, 0.25, -0.25), (0.125, -0.125, 0.125)],
  [(-0.25, 0.25, -0.25), (-0.25, 0.25, -0.25), (-0.125, 0.125, -0.125), (-0.125, 0.125, -0.125)],
  [(-0.25, 0.0, -0.25), (0.375, -0.375, -0.375), (0.0, 0.25, -0.25), (-0.125, 0.125, 0.125)],
  [(0.5, 0.0, 0.0), (-0.25, 0.25, -0.25), (0.125, -0.125, 0.125)],
  [(-0.25, 0.0, 0.25), (0.25, 0.0, -0.25)],
  [(-0.0, 0.0, 0.5), (-0.25, 0.25, 0.25), (-0.125, 0.125, 0.125)],
  [(-0.125, -0.125, 0.125), (-0.25, 0.0, 0.25), (0.25, 0.0, -0.25)],
  [(-0.25, -0.0, -0.25), (-0.375, 0.375, 0.375), (-0.25, -0.25, 0.0), (-0.125, 0.125, 0.125)],
  [(0.0, 0.0, -0.5), (0.25, 0.25, -0.25), (-0.125, -0.125, 0.125)],
  [(-0.0, 0.0, 0.5), (0.0, 0.0, 0.5)],
  [(0.125, 0.125, 0.125), (0.125, 0.125, 0.125), (0.25, 0.25, 0.25), (0.0, 0.0, 0.5)],
  [(0.125, 0.125, 0.125), (0.25, 0.25, 0.25), (0.0, 0.0, 0.5)],
  [(-0.25, 0.0, 0.25), (0.25, 0.0, -0.25), (-0.125, 0.125, 0.125)],
  [(-0.0, 0.0, 0.5), (0.25, -0.25, 0.25), (0.125, -0.125, 0.125), (0.125, -0.125, 0.125)],
  [(-0.25, 0.0, 0.25), (-0.25, 0.0, 0.25), (-0.25, 0.0, 0.25), (0.25, 0.0, -0.25)],
  [(0.125, -0.125, 0.125), (0.25, 0.0, 0.25), (0.25, 0.0, 0.25)],
  [(0.25, 0.0, 0.25), (-0.375, -0.375, 0.375), (-0.25, 0.25, 0.0), (-0.125, -0.125, 0.125)],
  [(-0.0, 0.0, 0.5), (0.25, -0.25, 0.25), (0.125, -0.125, 0.125)],
  [(0.125, 0.125, 0.125), (0.25, 0.0, 0.25), (0.25, 0.0, 0.25)],
  [(0.25, 0.0, 0.25), (0.25, 0.0, 0.25)],
  [(-0.125, -0.125, 0.125), (0.125, -0.125, 0.125)],
  [(0.125, 0.125, 0.125), (-0.125, -0.125, 0.125), (0.125, -0.125, 0.125)],
  [(-0.125, -0.125, 0.125), (0.0, -0.25, 0.25), (0.0, 0.25, -0.25)],
  [(0.0, -0.5, 0.0), (0.125, 0.125, -0.125), (0.25, 0.25, -0.25), (-0.125, -0.125, 0.125)],
  [(0.0, -0.25, 0.25), (0.0, -0.25, 0.25), (0.125, -0.125, 0.125)],
  [(0.0, 0.0, 0.5), (0.25, -0.25, 0.25), (0.125, -0.125, 0.125), (0.125, -0.125, 0.125)],
  [(0.0, -0.25, 0.25), (0.0, -0.25, 0.25), (0.0, -0.25, 0.25), (0.0, 0.25, -0.25)],
  [(0.0, 0.25, 0.25), (0.0, 0.25, 0.25), (0.125, -0.125, -0.125)],
  [(-0.125, 0.125, 0.125), (0.125, -0.125, 0.125), (-0.125, -0.125, 0.125)],
  [(-0.125, 0.125, 0.125), (0.125, -0.125, 0.125), (-0.125, -0.125, 0.125), (0.125, 0.125, 0.125)],
  [(-0.0, 0.0, 0.5), (-0.25, -0.25, 0.25), (-0.125, -0.125, 0.125), (-0.125, -0.125, 0.125)],
  [(0.125, 0.125, 0.125), (0.125, -0.125, 0.125), (0.125, -0.125, -0.125)],
  [(-0.0, 0.5, 0.0), (-0.25, 0.25, -0.25), (0.125, -0.125, 0.125), (0.125, -0.125, 0.125)],
  [(0.125, 0.125, 0.125), (-0.125, -0.125, 0.125), (0.125, -0.125, -0.125)],
  [(0.0, -0.25, -0.25), (0.0, 0.25, 0.25), (0.125, 0.125, 0.125)],
  [(0.125, 0.125, 0.125), (0.125, -0.125, -0.125)],
  [(0.5, 0.0, -0.0), (0.25, -0.25, -0.25), (0.125, -0.125, -0.125)],
  [(-0.25, 0.25, 0.25), (-0.125, 0.125, 0.125), (-0.25, 0.25, 0.25), (0.125, -0.125, -0.125)],
  [(0.375, -0.375, 0.375), (0.0, 0.25, 0.25), (-0.125, 0.125, -0.125), (-0.25, 0.0, 0.25)],
  [(0.0, -0.5, 0.0), (-0.25, 0.25, 0.25), (-0.125, 0.125, 0.125)],
  [(-0.375, -0.375, 0.375), (0.25, -0.25, 0.0), (0.0, 0.25, 0.25), (-0.125, -0.125, 0.125)],
  [(-0.125, 0.125, 0.125), (-0.25, 0.25, 0.25), (0.0, 0.0, 0.5)],
  [(0.125, 0.125, 0.125), (0.0, 0.25, 0.25), (0.0, 0.25, 0.25)],
  [(0.0, 0.25, 0.25), (0.0, 0.25, 0.25)],
  [(0.5, 0.0, -0.0), (0.25, 0.25, 0.25), (0.125, 0.125, 0.125), (0.125, 0.125, 0.125)],
  [(0.125, -0.125, 0.125), (-0.125, -0.125, 0.125), (0.125, 0.125, 0.125)],
  [(-0.25, -0.0, -0.25), (0.25, 0.0, 0.25), (0.125, 0.125, 0.125)],
  [(0.125, 0.125, 0.125), (0.125, -0.125, 0.125)],
  [(-0.25, -0.25, 0.0), (0.25, 0.25, -0.0), (0.125, 0.125, 0.125)],
  [(0.125, 0.125, 0.125), (-0.125, -0.125, 0.125)],
  [(0.125, 0.125, 0.125), (0.125, 0.125, 0.125)],
  [(0.125, 0.125, 0.125)]]

set_option maxHeartbeats 1000000 in
/-- Entries 128-191 of `_neighbour_code_to_normals`. -/
def neighbourNormalsC : List (List (ℝ × ℝ × ℝ)) := [
  [(0.125, 0.125, 0.125)],
  [(0.125, 0.125, 0.125), (0.125, 0.125, 0.125)],
  [(0.125, 0.125, 0.125), (-0.125, -0.125, 0.125)],
  [(-0.25, -0.25, 0.0), (0.25, 0.25, -0.0), (0.125, 0.125, 0.125)],
  [(0.125, 0.125, 0.125), (0.125, -0.125, 0.125)],
  [(-0.25, -0.0, -0.25), (0.25, 0.0, 0.25), (0.125, 0.125, 0.125)],
  [(0.125, -0.125, 0.125), (-0.125, -0.125, 0.125), (0.125, 0.125, 0.125)],
  [(0.5, 0.0, -0.0), (0.25, 0.25, 0.25), (0.125, 0.125, 0.125), (0.125, 0.125, 0.125)],
  [(0.0, 0.25, 0.25), (0.0, 0.25, 0.25)],
  [(0.125, 0.125, 0.125), (0.0, 0.25, 0.25), (0.0, 0.25, 0.25)],
  [(-0.125, 0.125, 0.125), (-0.25, 0.25, 0.25), (0.0, 0.0, 0.5)],
  [(-0.375, -0.375, 0.375), (0.25, -0.25, 0.0), (0.0, 0.25, 0.25), (-0.125, -0.125, 0.125)],
  [(0.0, -0.5, 0.0), (-0.25, 0.25, 0.25), (-0.125, 0.125, 0.125)],
  [(0.375, -0.375, 0.375), (0.0, 0.25, 0.25), (-0.125, 0.125, -0.125), (-0.25, 0.0, 0.25)],
  [(-0.25, 0.25, 0.25), (-0.125, 0.125, 0.125), (-0.25, 0.25, 0.25), (0.125, -0.125, -0.125)],
  [(0.5, 0.0, -0.0), (0.25, -0.25, -0.25), (0.125, -0.125, -0.125)],
  [(0.125, 0.125, 0.125), (0.125, -0.125, -0.125)],
  [(0.0, -0.25, -0.25), (0.0, 0.25, 0.25), (0.125, 0.125, 0.125)],
  [(0.125, 0.125, 0.125), (-0.125, -0.125, 0.125), (0.125, -0.125, -0.125)],
  [(-0.0, 0.5, 0.0), (-0.25, 0.25, -0.25), (0.125, -0.125, 0.125), (0.125, -0.125, 0.125)],
  [(0.125, 0.125, 0.125), (0.125, -0.125, 0.125), (0.125, -0.125, -0.125)],
  [(-0.0, 0.0, 0.5), (-0.25, -0.25, 0.25), (-0.125, -0.125, 0.125), (-0.125, -0.125, 0.125)],
  [(-0.125, 0.125, 0.125), (0.125, -0.125, 0.125), (-0.125, -0.125, 0.125), (0.125, 0.125, 0.125)],
  [(-0.125, 0.125, 0.125), (0.125, -0.125, 0.125), (-0.125, -0.125, 0.125)],
  [(0.0, 0.25, 0.25), (0.0, 0.25, 0.25), (0.125, -0.125, -0.125)],
  [(0.0, -0.25, -0.25), (0.0, 0.25, 0.25), (0.0, 0.25, 0.25), (0.0, 0.25, 0.25)],
  [(0.0, 0.0, 0.5), (0.25, -0.25, 0.25), (0.125, -0.125, 0.125), (0.125, -0.125, 0.125)],
  [(0.0, -0.25, 0.25), (0.0, -0.25, 0.25), (0.125, -0.125, 0.125)],
  [(0.0, -0.5, 0.0), (0.125, 0.125, -0.125), (0.25, 0.25, -0.25), (-0.125, -0.125, 0.125)],
  [(-0.125, -0.125, 0.125), (0.0, -0.25, 0.25), (0.0, 0.25, -0.25)],
  [(0.125, 0.125, 0.125), (-0.125, -0.125, 0.125), (0.125, -0.125, 0.125)],
  [(-0.125, -0.125, 0.125), (0.125, -0.125, 0.125)],
  [(0.25, 0.0, 0.25), (0.25, 0.0, 0.25)],
  [(0.125, 0.125, 0.125), (0.25, 0.0, 0.25), (0.25, 0.0, 0.25)],
  [(-0.0, 0.0, 0.5), (0.25, -0.25, 0.25), (0.125, -0.125, 0.125)],
  [(0.25, 0.0, 0.25), (-0.375, -0.375, 0.375), (-0.25, 0.25, 0.0), (-0.125, -0.125, 0.125)],
  [(0.125, -0.125, 0.125), (0.25, 0.0, 0.25), (0.25, 0.0, 0.25)],
  [(-0.25, -0.0, -0.25), (0.25, 0.0, 0.25), (0.25, 0.0, 0.25), (0.25, 0.0, 0.25)],
  [(-0.0, 0.0, 0.5), (0.25, -0.25, 0.25), (0.125, -0.125, 0.125), (0.125, -0.125, 0.125)],
  [(-0.25, 0.0, 0.25), (0.25, 0.0, -0.25), (-0.125, 0.125, 0.125)],
  [(0.125, 0.125, 0.125), (0.25, 0.25, 0.25), (0.0, 0.0, 0.5)],
  [(0.125, 0.125, 0.125), (0.125, 0.125, 0.125), (0.25, 0.25, 0.25), (0.0, 0.0, 0.5)],
  [(-0.0, 0.0, 0.5), (0.0, 0.0, 0.5)],
  [(0.0, 0.0, -0.5), (0.25, 0.25, -0.25), (-0.125, -0.125, 0.125)],
  [(-0.25, -0.0, -0.25), (-0.375, 0.375, 0.375), (-0.25, -0.25, 0.0), (-0.125, 0.125, 0.125)],
  [(-0.125, -0.125, 0.125), (-0.25, 0.0, 0.25), (0.25, 0.0, -0.25)],
  [(-0.0, 0.0, 0.5), (-0.25, 0.25, 0.25), (-0.125, 0.125, 0.125)],
  [(-0.25, 0.0, 0.25), (0.25, 0.0, -0.25)],
  [(0.5, 0.0, 0.0), (-0.25, 0.25, -0.25), (0.125, -0.125, 0.125)],
  [(-0.25, 0.0, -0.25), (0.375, -0.375, -0.375), (0.0, 0.25, -0.25), (-0.125, 0.125, 0.125)],
  [(-0.25, 0.25, -0.25), (-0.25, 0.25, -0.25), (-0.125, 0.125, -0.125), (-0.125, 0.125, -0.125)],
  [(-0.0, 0.5, 0.0), (-0.25, 0.25, -0.25), (0.125, -0.125, 0.125)],
  [(0.5, 0.0, 0.0), (-0.25, -0.25, 0.25), (-0.125, -0.125, 0.125), (-0.125, -0.125, 0.125)],
  [(-0.125, -0.125, 0.125), (-0.25, 0.0, 0.25), (-0.25, 0.0, 0.25)],
  [(0.125, 0.125, 0.125), (-0.125, -0.125, 0.125), (-0.125, 0.125, 0.125)],
  [(-0.125, -0.125, 0.125), (-0.125, 0.125, 0.125)],
  [(0.375, -0.375, 0.375), (0.0, -0.25, -0.25), (-0.125, 0.125, -0.125), (0.25, 0.25, 0.0)],
  [(0.0, -0.25, 0.25), (0.0, -0.25, 0.25), (-0.125, -0.125, 0.125)],
  [(0.0, 0.0, 0.5), (0.25, -0.25, 0.25), (0.125, -0.125, 0.125)],
  [(0.0, -0.25, 0.25), (0.0, -0.25, 0.25)],
  [(-0.125, -0.125, 0.125), (-0.25, -0.25, 0.0), (0.25, 0.25, -0.0)],
  [(-0.125, -0.125, 0.125), (-0.125, -0.125, 0.125)],
  [(0.125, 0.125, 0.125), (-0.125, -0.125, 0.125)],
  [(-0.125, -0.125, 0.125)]]

set_option maxHeartbeats 1000000 in
/-- Entries 192-255 of `_neighbour_code_to_normals`. -/
def neighbourNormalsD : List (List (ℝ × ℝ × ℝ)) := [
  [(-0.25, -0.25, 0.0), (-0.25, -0.25, 0.0)],
  [(0.125, 0.125, 0.125), (-0.25, -0.25, 0.0), (-0.25, -0.25, 0.0)],
  [(-0.25, -0.25, 0.0), (-0.25, -0.25, 0.0), (-0.125, -0.125, 0.125)],
  [(-0.25, -0.25, 0.0), (-0.25, -0.25, 0.0), (-0.25, -0.25, 0.0), (0.25, 0.25, -0.0)],
  [(0.0, 0.5, 0.0), (0.25, 0.25, -0.25), (-0.125, -0.125, 0.125)],
  [(-0.375, 0.375, -0.375), (-0.25, -0.25, 0.0), (-0.125, 0.125, -0.125), (-0.25, 0.0, 0.25)],
  [(0.0, 0.5, 0.0), (0.25, 0.25, -0.25), (-0.125, -0.125, 0.125), (-0.125, -0.125, 0.125)],
  [(-0.125, 0.125, 0.125), (0.25, -0.25, 0.0), (-0.25, 0.25, 0.0)],
  [(0.0, -0.5, 0.0), (-0.25, -0.25, -0.25), (-0.125, -0.125, -0.125)],
  [(0.125, 0.125, 0.125), (0.0, -0.5, 0.0), (-0.25, -0.25, -0.25), (-0.125, -0.125, -0.125)],
  [(-0.375, -0.375, -0.375), (-0.25, 0.0, 0.25), (-0.125, -0.125, -0.125), (-0.25, 0.25, 0.0)],
  [(0.25, -0.25, 0.0), (-0.25, 0.25, 0.0), (0.125, -0.125, 0.125)],
  [(0.0, 0.5, 0.0), (0.0, -0.5, 0.0)],
  [(0.0, 0.5, 0.0), (0.125, -0.125, 0.125), (-0.25, 0.25, -0.25)],
  [(0.0, 0.5, 0.0), (-0.25, 0.25, 0.25), (0.125, -0.125, -0.125)],
  [(0.25, -0.25, 0.0), (-0.25, 0.25, 0.0)],
  [(-0.5, 0.0, 0.0), (-0.25, -0.25, 0.25), (-0.125, -0.125, 0.125)],
  [(0.0, 0.25, -0.25), (0.375, -0.375, -0.375), (-0.125, 0.125, 0.125), (0.25, 0.25, 0.0)],
  [(0.5, 0.0, 0.0), (0.25, -0.25, 0.25), (-0.125, 0.125, -0.125), (0.125, -0.125, 0.125)],
  [(0.125, -0.125, 0.125), (0.25, -0.25, 0.0), (0.25, -0.25, 0.0)],
  [(0.25, 0.25, -0.25), (0.25, 0.25, -0.25), (0.125, 0.125, -0.125), (-0.125, -0.125, 0.125)],
  [(-0.0, 0.0, 0.5), (-0.25, -0.25, 0.25), (-0.125, -0.125, 0.125)],
  [(0.125, 0.125, 0.125), (0.125, -0.125, 0.125), (-0.125, 0.125, 0.125)],
  [(-0.125, 0.125, 0.125), (0.125, -0.125, 0.125)],
  [(-0.375, -0.375, 0.375), (-0.0, 0.25, 0.25), (0.125, 0.125, -0.125), (-0.25, -0.0, -0.25)],
  [(0.0, -0.25, 0.25), (0.0, 0.25, -0.25), (0.125, -0.125, 0.125)],
  [(0.125, -0.125, 0.125), (-0.25, -0.0, -0.25), (0.25, 0.0, 0.25)],
  [(0.125, -0.125, 0.125), (0.125, -0.125, 0.125)],
  [(0.0, -0.5, 0.0), (0.125, 0.125, -0.125), (0.25, 0.25, -0.25)],
  [(0.0, -0.25, 0.25), (0.0, 0.25, -0.25)],
  [(0.125, 0.125, 0.125), (0.125, -0.125, 0.125)],
  [(0.125, -0.125, 0.125)],
  [(-0.5, 0.0, 0.0), (-0.125, -0.125, -0.125), (-0.25, -0.25, -0.25)],
  [(-0.5, 0.0, 0.0), (-0.125, -0.125, -0.125), (-0.25, -0.25, -0.25), (0.125, 0.125, 0.125)],
  [(0.375, 0.375, 0.375), (0.0, 0.25, -0.25), (-0.125, -0.125, -0.125), (-0.25, 0.25, 0.0)],
  [(0.125, -0.125, -0.125), (0.25, -0.25, 0.0), (0.25, -0.25, 0.0)],
  [(0.125, 0.125, 0.125), (0.375, 0.375, 0.375), (0.0, -0.25, 0.25), (-0.25, 0.0, 0.25)],
  [(-0.25, 0.0, 0.25), (-0.25, 0.0, 0.25), (0.125, -0.125, -0.125)],
  [(0.0, -0.25, -0.25), (0.0, 0.25, 0.25), (-0.125, 0.125, 0.125)],
  [(-0.125, 0.125, 0.125), (0.125, -0.125, -0.125)],
  [(-0.125, -0.125, -0.125), (-0.25, -0.25, -0.25), (0.25, 0.25, 0.25), (0.125, 0.125, 0.125)],
  [(-0.125, -0.125, 0.125), (0.125, -0.125, 0.125), (0.125, -0.125, -0.125)],
  [(0.0, 0.0, -0.5), (0.25, 0.25, 0.25), (-0.125, -0.125, -0.125)],
  [(0.125, -0.125, 0.125), (0.125, -0.125, -0.125)],
  [(0.0, -0.5, 0.0), (0.25, 0.25, 0.25), (0.125, 0.125, 0.125)],
  [(-0.125, -0.125, 0.125), (0.125, -0.125, -0.125)],
  [(0.0, -0.25, -0.25), (0.0, 0.25, 0.25)],
  [(0.125, -0.125, -0.125)],
  [(0.5, 0.0, 0.0), (0.5, 0.0, 0.0)],
  [(-0.5, 0.0, 0.0), (-0.25, 0.25, 0.25), (-0.125, 0.125, 0.125)],
  [(0.5, 0.0, 0.0), (0.25, -0.25, 0.25), (-0.125, 0.125, -0.125)],
  [(0.25, -0.25, 0.0), (0.25, -0.25, 0.0)],
  [(0.5, 0.0, 0.0), (-0.25, -0.25, 0.25), (-0.125, -0.125, 0.125)],
  [(-0.25, 0.0, 0.25), (-0.25, 0.0, 0.25)],
  [(0.125, 0.125, 0.125), (-0.125, 0.125, 0.125)],
  [(-0.125, 0.125, 0.125)],
  [(0.5, 0.0, -0.0), (0.25, 0.25, 0.25), (0.125, 0.125, 0.125)],
  [(0.125, -0.125, 0.125), (-0.125, -0.125, 0.125)],
  [(-0.25, -0.0, -0.25), (0.25, 0.0, 0.25)],
  [(0.125, -0.125, 0.125)],
  [(-0.25, -0.25, 0.0), (0.25, 0.25, -0.0)],
  [(-0.125, -0.125, 0.125)],
  [(0.125, 0.125, 0.125)],
  [(0, 0, 0)]]

/-- The 256-entry table `_neighbour_code_to_normals` (base.py lines
46-302), transcribed value for value (in four blocks of 64 for
elaboration speed): entry `c` lists the elementary surface-normal
contributions of neighbour configuration `c`. -/
def neighbourCodeToNormals : List (List (ℝ × ℝ × ℝ)) :=
  neighbourNormalsA ++ neighbourNormalsB ++ neighbourNormalsC ++ neighbourNormalsD

/-- The per-spacing surface-area table entry of a neighbour code (base.py
lines 315-327): each normal `(nx, ny, nz)` is scaled to
`(nx*s1*s2, ny*s0*s2, nz*s0*s1)` and contributes the Euclidean norm of
the scaled vector; the contributions are summed. -/
noncomputable def surfaceArea (sp : ℝ × ℝ × ℝ) (code : ℕ) : ℝ :=
  ((neighbourCodeToNormals.getD code []).map fun nrm =>
    Real.sqrt ((nrm.1 * sp.2.1 * sp.2.2) ^ 2 + (nrm.2.1 * sp.1 * sp.2.2) ^ 2 +
      (nrm.2.2 * sp.1 * sp.2.1) ^ 2)).sum

/-- Physical distance between two voxel positions under a spacing, the
metric of `distance_transform_edt(..., sampling=spacing)`. -/
noncomputable def edist (sp : ℝ × ℝ × ℝ) (v w : ℕ × ℕ × ℕ) : ℝ :=
  Real.sqrt ((((v.1 : ℝ) - (w.1 : ℝ)) * sp.1) ^ 2 +
    (((v.2.1 : ℝ) - (w.2.1 : ℝ)) * sp.2.1) ^ 2 +
    (((v.2.2 : ℝ) - (w.2.2 : ℝ)) * sp.2.2) ^ 2)

/-- The distance-transform value at a voxel (base.py lines 394-404): when
the mask has surface voxels, the minimum physical distance to one of
them; when it has none, `np.Inf` (here `⊤`). -/
noncomputable def distmapAt (m : Mask) (sp : ℝ × ℝ × ℝ) (v : ℕ × ℕ × ℕ) : WithTop ℝ :=
  if borderList m = [] then ⊤
  else ((borderList m).map fun w => ((edist sp v w : ℝ) : WithTop ℝ)).foldr min ⊤

/-- Distance-transform values of `src`'s surface, read at the surface
voxels of `tgt` in row-major order (`distmap_pred[borders_gt]` and
`distmap_gt[borders_pred]`, base.py lines 412-413). -/
noncomputable def selectDists (src tgt : Mask) (sp : ℝ × ℝ × ℝ) : List (WithTop ℝ) :=
  (borderList tgt).map fun v => distmapAt src sp v

/-- Surface-area map values of a mask read at its own surface voxels
(`surface_area_map_gt[borders_gt]` etc., base.py lines 407-415). -/
noncomputable def selectAreas (m : Mask) (sp : ℝ × ℝ × ℝ) : List ℝ :=
  (borderList m).map fun v => surfaceArea sp (ncode m v.1 v.2.1 v.2.2)

/-- Python's ascending order on `(distance, area)` tuples: lexicographic,
with `inf` (`⊤`) sorting last. -/
def pairLE (x y : WithTop ℝ × ℝ) : Prop :=
  x.1 < y.1 ∨ (x.1 = y.1 ∧ x.2 ≤ y.2)

open Classical in
/-- Boolean form of `pairLE`, for `List.mergeSort`. -/
noncomputable def pairLEB (x y : WithTop ℝ × ℝ) : Bool := decide (pairLE x y)

/-- Value-level model of `sorted(zip(distances, areas))` (base.py lines
419-420, 425-426): the sorted permutation under the total lexicographic
tuple order. -/
noncomputable def sortPairs (l : List (WithTop ℝ × ℝ)) : List (WithTop ℝ × ℝ) :=
  l.mergeSort pairLEB

/-- The sort-and-split stage for one side (base.py lines 417-428): a
non-empty distance list is zipped with its area list, sorted by the tuple
order and split back into columns; an empty one is left untouched (the
`shape != (0,)` guard). -/
noncomputable def sortStage (d : List (WithTop ℝ)) (a : List ℝ) :
    List (WithTop ℝ) × List ℝ :=
  if d.length = 0 then (d, a)
  else
    let s := sortPairs (d.zip a)
    (s.map Prod.fst, s.map Prod.snd)

/-- The four sequences `_calculate` produces (either as the early-return
dict or as the attribute assignments). -/
structure FourSeqs where
  distances_gt_to_pred : List (WithTop ℝ)
  distances_pred_to_gt : List (WithTop ℝ)
  surfel_areas_gt : List ℝ
  surfel_areas_pred : List ℝ

/-- Outcome of `_calculate` on 3-D inputs: `earlyReturn` is the dict of
four empty sequences *returned* at base.py lines 339-342 (the caller
`__init__` discards it); `assigned` is the attribute assignment at lines
430-433. -/
inductive CalcResult where
  | earlyReturn : FourSeqs → CalcResult
  | assigned : FourSeqs → CalcResult

/-- The body of `Distances._calculate` on 3-D inputs (base.py lines
314-433): bounding box of the union with first-axis early exit, crop and
pad, neighbour codes and borders, distance transforms, selection of
(distance, area) pairs per side and the sort-and-split stage. -/
noncomputable def calculate (segmentation ground_truth : Mask) (sp : ℝ × ℝ × ℝ) :
    CalcResult :=
  let u := unionMask segmentation ground_truth
  if idxNonzero0 u = [] then CalcResult.earlyReturn ⟨[], [], [], []⟩
  else
    let cgt := cropPad ground_truth u
    let cpred := cropPad segmentation u
    let gtSide := sortStage (selectDists cpred cgt sp) (selectAreas cgt sp)
    let predSide := sortStage (selectDists cgt cpred sp) (selectAreas cpred sp)
    CalcResult.assigned ⟨gtSide.1, predSide.1, gtSide.2, predSide.2⟩

/-- The four attributes of a constructed `Distances` object; `none` is
Python's `None`, their initial value (base.py lines 41-44). -/
structure DistancesState where
  distances_gt_to_pred : Option (List (WithTop ℝ))
  distances_pred_to_gt : Option (List (WithTop ℝ))
  surfel_areas_gt : Option (List ℝ)
  surfel_areas_pred : Option (List ℝ)

/-- `Distances.__init__(prediction, label, spacing)` for 3-D inputs: the
attributes keep their initial `None` when `_calculate` takes the early
return (its returned dict is discarded), and receive the computed
sequences on the normal path. -/
noncomputable def mkDistances (prediction label : Mask) (sp : ℝ × ℝ × ℝ) :
    DistancesState :=
  match calculate prediction label sp with
  | CalcResult.earlyReturn _ => ⟨none, none, none, none⟩
  | CalcResult.assigned r =>
      ⟨some r.distances_gt_to_pred, some r.distances_pred_to_gt,
       some r.surfel_areas_gt, some r.surfel_areas_pred⟩

/-! ## 2-D inputs and their promotion (base.py lines 307-312) -/

/-- A 2-D binary mask. -/
structure Mask2 where
  n0 : ℕ
  n1 : ℕ
  data : ℕ → ℕ → Bool

/-- Expansion with a trailing singleton axis, `np.expand_dims(arr, -1)`. -/
def expandDimsLast (m : Mask2) : Mask :=
  ⟨m.n0, m.n1, 1, fun i j _ => m.data i j⟩

/-- `_calculate` on two 2-D masks with a length-2 spacing: the promotion
branch expands both masks with a trailing singleton axis, appends spacing
1.0, and falls through to the 3-D computation. -/
noncomputable def calculate2 (segmentation ground_truth : Mask2) (sp : ℝ × ℝ) :
    CalcResult :=
  calculate (expandDimsLast segmentation) (expandDimsLast ground_truth) (sp.1, sp.2, 1)

/-- `Distances.__init__` on 2-D inputs with a length-2 spacing. -/
noncomputable def mkDistances2 (prediction label : Mask2) (sp : ℝ × ℝ) :
    DistancesState :=
  match calculate2 prediction label sp with
  | CalcResult.earlyReturn _ => ⟨none, none, none, none⟩
  | CalcResult.assigned r =>
      ⟨some r.distances_gt_to_pred, some r.distances_pred_to_gt,
       some r.surfel_areas_gt, some r.surfel_areas_pred⟩


end Pymia

namespace Miapy

/-! ## `VoxelWiseIndexing` (indexing.py lines 43-65).  The
`IndexExpression` payload class is not under `src/`; it is an opaque
wrapper around the index list `idx.tolist()`, so an indexing entry is
modelled as that list of coordinates. -/

/-- All multi-indices of a dimension list in row-major order: exactly the
rows of `np.indices(shape).reshape(ndim, -1).transpose()`. -/
def indexTuples : List ℕ → List (List ℕ)
  | [] => [[]]
  | n :: rest => (List.range n).flatMap fun i => (indexTuples rest).map fun t => i :: t

/-- The indexing list computed on a cache miss (indexing.py lines 59-64):
all voxel indices of `shape[0:image_dimension]`. -/
def computeVoxelIndexing (shape : List ℕ) (image_dimension : ℕ) : List (List ℕ) :=
  indexTuples (shape.take image_dimension)

/-- Mutable state of a `VoxelWiseIndexing` instance: the last seen shape,
the cached indexing, and the fixed image dimension (indexing.py lines
45-53; `shape` and `indexing` start as `None`). -/
structure VoxelWiseIndexing where
  shape : Option (List ℕ)
  indexing : Option (List (List ℕ))
  image_dimension : ℕ
  deriving DecidableEq

/-- A freshly constructed instance. -/
def initVoxelWiseIndexing (image_dimension : ℕ) : VoxelWiseIndexing :=
  ⟨none, none, image_dimension⟩

/-- One call of the instance (indexing.py lines 55-65): on a shape equal
to the cached one, return the cached indexing unchanged; otherwise store
the shape, compute and store the indexing, and return it. -/
def VoxelWiseIndexing.call (s : VoxelWiseIndexing) (shape : List ℕ) :
    VoxelWiseIndexing × Option (List (List ℕ)) :=
  if s.shape = some shape then (s, s.indexing)
  else
    let idx := computeVoxelIndexing shape s.image_dimension
    (⟨some shape, some idx, s.image_dimension⟩, some idx)

end Miapy

namespace Pymia

/-! ## Helper lemmas about the pair order and the sort-and-split stage -/

theorem pairLEB_iff (x y : WithTop ℝ × ℝ) : pairLEB x y = true ↔ pairLE x y := by
  simp [pairLEB]

theorem pairLEB_trans (x y z : WithTop ℝ × ℝ) (h1 : pairLEB x y = true)
    (h2 : pairLEB y z = true) : pairLEB x z = true := by
  rw [pairLEB_iff] at h1 h2 ⊢
  rcases h1 with h1 | ⟨e1, l1⟩ <;> rcases h2 with h2 | ⟨e2, l2⟩
  · exact Or.inl (lt_trans h1 h2)
  · exact Or.inl (e2 ▸ h1)
  · exact Or.inl (e1 ▸ h2)
  · exact Or.inr ⟨e1.trans e2, l1.trans l2⟩

theorem pairLEB_total (x y : WithTop ℝ × ℝ) : (pairLEB x y || pairLEB y x) = true := by
  simp only [Bool.or_eq_true, pairLEB_iff, pairLE]
  rcases lt_trichotomy x.1 y.1 with h | h | h
  · exact Or.inl (Or.inl h)
  · rcases le_total x.2 y.2 with h2 | h2
    · exact Or.inl (Or.inr ⟨h, h2⟩)
    · exact Or.inr (Or.inr ⟨h.symm, h2⟩)
  · exact Or.inr (Or.inl h)

theorem sortPairs_pairwise (l : List (WithTop ℝ × ℝ)) :
    (sortPairs l).Pairwise pairLE := by
  have h := List.sorted_mergeSort pairLEB_trans pairLEB_total l
  exact h.imp fun hab => (pairLEB_iff _ _).mp hab

theorem sortPairs_perm (l : List (WithTop ℝ × ℝ)) : (sortPairs l).Perm l :=
  List.mergeSort_perm l pairLEB

theorem sortPairs_length (l : List (WithTop ℝ × ℝ)) :
    (sortPairs l).length = l.length :=
  List.length_mergeSort l

theorem zipUnzipId {α β : Type} : ∀ l : List (α × β),
    (l.map Prod.fst).zip (l.map Prod.snd) = l
  | [] => rfl
  | x :: xs => by simp [zipUnzipId xs]

theorem sortStage_fst_sorted (d : List (WithTop ℝ)) (a : List ℝ) :
    ((sortStage d a).1).Pairwise (· ≤ ·) := by
  unfold sortStage
  split
  · next h => rw [List.length_eq_zero] at h; subst h; simp
  · exact (sortPairs_pairwise _).map Prod.fst fun x y hxy =>
      hxy.elim le_of_lt fun h => le_of_eq h.1

theorem sortStage_lengths (d : List (WithTop ℝ)) (a : List ℝ) (h : d.length = a.length) :
    ((sortStage d a).1).length = d.length ∧ ((sortStage d a).2).length = d.length := by
  unfold sortStage
  split
  · exact ⟨rfl, h.symm⟩
  · simp [sortPairs_length, h]

theorem sortStage_zip_pairwise (d : List (WithTop ℝ)) (a : List ℝ) :
    (((sortStage d a).1).zip ((sortStage d a).2)).Pairwise
      fun x y => x.1 = y.1 → x.2 ≤ y.2 := by
  unfold sortStage
  split
  · next h => rw [List.length_eq_zero] at h; subst h; simp
  · rw [zipUnzipId]
    exact (sortPairs_pairwise _).imp fun hxy heq =>
      hxy.elim (fun hlt => absurd heq (ne_of_lt hlt)) fun h => h.2

end Pymia

namespace Pymia

/-! ## Claims C7 and C8 -/

/-- C7: computing `Distances` on a 2-D mask pair with spacing `(sx, sy)`
yields results identical to computing on the same masks expanded with a
trailing singleton axis and spacing `(sx, sy, 1.0)`.  In the source the
2-D branch of `_calculate` rebinds the expanded arrays and the extended
spacing and falls through to the 3-D computation, so the equality is
definitional. -/
theorem c7_promotion_equivalence (prediction label : Mask2) (sx sy : ℝ) :
    mkDistances2 prediction label (sx, sy) =
      mkDistances (expandDimsLast prediction) (expandDimsLast label) (sx, sy, 1) := rfl

/-- C8: for every positive spacing, the precomputed 256-entry surface-area
table assigns exactly 0 to neighbour code 0 and to neighbour code 255
(their normal lists are a single zero vector). -/
theorem c8_zero_area_degenerate_codes (s0 s1 s2 : ℝ)
    (h0 : 0 < s0) (h1 : 0 < s1) (h2 : 0 < s2) :
    surfaceArea (s0, s1, s2) 0 = 0 ∧ surfaceArea (s0, s1, s2) 255 = 0 := by
  have e0 : neighbourCodeToNormals.getD 0 [] = [((0 : ℝ), 0, 0)] := rfl
  have e255 : neighbourCodeToNormals.getD 255 [] = [((0 : ℝ), 0, 0)] := rfl
  constructor
  · unfold surfaceArea
    rw [e0]
    norm_num
  · unfold surfaceArea
    rw [e255]
    norm_num

/-- Witness for C8 at spacing (1, 1, 1). -/
theorem c8_zero_area_degenerate_codes_witness :
    surfaceArea (1, 1, 1) 0 = 0 ∧ surfaceArea (1, 1, 1) 255 = 0 :=
  c8_zero_area_degenerate_codes 1 1 1 (by norm_num) (by norm_num) (by norm_num)

end Pymia

namespace Miapy

/-- One call on a cache hit (indexing.py lines 56-57): the cached
indexing is returned and the state is unchanged. -/
theorem callHit (st : VoxelWiseIndexing) (s : List ℕ) (h : st.shape = some s) :
    st.call s = (st, st.indexing) := by
  unfold VoxelWiseIndexing.call; rw [if_pos h]

/-- One call on a cache miss (indexing.py lines 59-65): the shape and the
freshly computed indexing are stored and the indexing is returned. -/
theorem callMiss (st : VoxelWiseIndexing) (s : List ℕ) (h : st.shape ≠ some s) :
    st.call s =
      (⟨some s, some (computeVoxelIndexing s st.image_dimension), st.image_dimension⟩,
        some (computeVoxelIndexing s st.image_dimension)) := by
  unfold VoxelWiseIndexing.call; rw [if_neg h]

/-- C10: calling a `VoxelWiseIndexing` instance with a shape and calling
it again with an equal shape returns the cached indexing computed by the
first call, leaving the state unchanged; after any call the cache holds
exactly the shape just seen (it is keyed only by the most recently seen
shape), so a later call with any other shape recomputes. -/
theorem c10_voxelwise_indexing_cache (st : VoxelWiseIndexing) (s s' : List ℕ)
    (hne : s' ≠ s) :
    ((st.call s).1).call s = st.call s ∧
    ((st.call s).1).shape = some s ∧
    (((st.call s).1).call s').2 =
      some (computeVoxelIndexing s' st.image_dimension) := by
  by_cases h : st.shape = some s
  · have hne' : st.shape ≠ some s' := by
      rw [h]; exact fun hc => hne (Option.some.inj hc).symm
    refine ⟨?_, ?_, ?_⟩
    · rw [callHit st s h]; exact callHit st s h
    · rw [callHit st s h]; exact h
    · rw [callHit st s h]
      show (st.call s').2 = _
      rw [callMiss st s' hne']
  · refine ⟨?_, ?_, ?_⟩
    · rw [callMiss st s h]
      show VoxelWiseIndexing.call
        ⟨some s, some (computeVoxelIndexing s st.image_dimension), st.image_dimension⟩ s = _
      rw [callHit _ s rfl]
    · rw [callMiss st s h]
    · rw [callMiss st s h]
      show (VoxelWiseIndexing.call
        ⟨some s, some (computeVoxelIndexing s st.image_dimension), st.image_dimension⟩ s').2 = _
      rw [callMiss _ s' fun hc => hne (Option.some.inj hc).symm]

/-- Witness for C10: a fresh instance with image dimension 3, first called
with shape [2, 2], then with the different shape [3]. -/
theorem c10_voxelwise_indexing_cache_witness :
    (((initVoxelWiseIndexing 3).call [2, 2]).1).call [2, 2] =
        (initVoxelWiseIndexing 3).call [2, 2] ∧
    ((((initVoxelWiseIndexing 3).call [2, 2]).1).call [3]).2 =
      some (computeVoxelIndexing [3] 3) :=
  ⟨(c10_voxelwise_indexing_cache (initVoxelWiseIndexing 3) [2, 2] [3] (by decide)).1,
   (c10_voxelwise_indexing_cache (initVoxelWiseIndexing 3) [2, 2] [3] (by decide)).2.2⟩

end Miapy

namespace Pymia

/-! ## Path lemmas for `calculate` and `mkDistances` -/

theorem calculate_early (p l : Mask) (sp : ℝ × ℝ × ℝ)
    (h : idxNonzero0 (unionMask p l) = []) :
    calculate p l sp = CalcResult.earlyReturn ⟨[], [], [], []⟩ := by
  unfold calculate; rw [if_pos h]

theorem mkDistances_early (p l : Mask) (sp : ℝ × ℝ × ℝ)
    (h : idxNonzero0 (unionMask p l) = []) :
    mkDistances p l sp = ⟨none, none, none, none⟩ := by
  unfold mkDistances; rw [calculate_early p l sp h]

theorem calculate_main (p l : Mask) (sp : ℝ × ℝ × ℝ)
    (h : idxNonzero0 (unionMask p l) ≠ []) :
    calculate p l sp = CalcResult.assigned
      ⟨(sortStage (selectDists (cropPad p (unionMask p l)) (cropPad l (unionMask p l)) sp)
          (selectAreas (cropPad l (unionMask p l)) sp)).1,
       (sortStage (selectDists (cropPad l (unionMask p l)) (cropPad p (unionMask p l)) sp)
          (selectAreas (cropPad p (unionMask p l)) sp)).1,
       (sortStage (selectDists (cropPad p (unionMask p l)) (cropPad l (unionMask p l)) sp)
          (selectAreas (cropPad l (unionMask p l)) sp)).2,
       (sortStage (selectDists (cropPad l (unionMask p l)) (cropPad p (unionMask p l)) sp)
          (selectAreas (cropPad p (unionMask p l)) sp)).2⟩ := by
  unfold calculate; rw [if_neg h]

theorem mkDistances_main (p l : Mask) (sp : ℝ × ℝ × ℝ)
    (h : idxNonzero0 (unionMask p l) ≠ []) :
    mkDistances p l sp =
      ⟨some (sortStage (selectDists (cropPad p (unionMask p l)) (cropPad l (unionMask p l)) sp)
          (selectAreas (cropPad l (unionMask p l)) sp)).1,
       some (sortStage (selectDists (cropPad l (unionMask p l)) (cropPad p (unionMask p l)) sp)
          (selectAreas (cropPad p (unionMask p l)) sp)).1,
       some (sortStage (selectDists (cropPad p (unionMask p l)) (cropPad l (unionMask p l)) sp)
          (selectAreas (cropPad l (unionMask p l)) sp)).2,
       some (sortStage (selectDists (cropPad l (unionMask p l)) (cropPad p (unionMask p l)) sp)
          (selectAreas (cropPad p (unionMask p l)) sp)).2⟩ := by
  unfold mkDistances; rw [calculate_main p l sp h]

/-- A mask whose stored entries are all background. -/
def allBg (m : Mask) : Bool :=
  (List.range m.n0).all fun i => (List.range m.n1).all fun j =>
    (List.range m.n2).all fun k => !(m.data i j k)

theorem allBg_val (m : Mask) (h : allBg m = true) (i j k : ℕ) : m.val i j k = false := by
  simp only [allBg, List.all_eq_true, List.mem_range, Bool.not_eq_true'] at h
  unfold Mask.val
  split
  · next hb => exact h i hb.1 j hb.2.1 k hb.2.2
  · rfl

theorem unionMask_val (p l : Mask) (i j k : ℕ) :
    (unionMask p l).val i j k =
      if i < l.n0 ∧ j < l.n1 ∧ k < l.n2 then (l.val i j k || p.val i j k) else false := rfl

theorem idxNonzero0_union_of_allBg (p l : Mask) (hp : allBg p = true)
    (hl : allBg l = true) : idxNonzero0 (unionMask p l) = [] := by
  unfold idxNonzero0
  rw [List.filter_eq_nil_iff]
  intro a _
  unfold proj0
  rw [Bool.not_eq_true, List.any_eq_false]
  intro j _
  rw [Bool.not_eq_true, List.any_eq_false]
  intro k _
  rw [Bool.not_eq_true, unionMask_val, allBg_val p hp, allBg_val l hl]
  split <;> rfl

/-- A 4×4×4 all-background mask (the grid of the spec's Scenario C). -/
def bg4 : Mask := ⟨4, 4, 4, fun _ _ _ => false⟩

/-- C1 (code evaluated at the failing input): when prediction and label
are entirely background, `_calculate` does short-circuit after the
first-axis projection check, returning the dict of four empty sequences -
but `__init__` discards that return value, so the four attributes of the
constructed `Distances` remain `None` rather than the four empty
sequences the claim states. -/
theorem c1_empty_surfaces_attributes_none (p l : Mask) (sp : ℝ × ℝ × ℝ)
    (hdim : p.dims = l.dims) (hp : allBg p = true) (hl : allBg l = true) :
    calculate p l sp = CalcResult.earlyReturn ⟨[], [], [], []⟩ ∧
    mkDistances p l sp = ⟨none, none, none, none⟩ :=
  ⟨calculate_early p l sp (idxNonzero0_union_of_allBg p l hp hl),
   mkDistances_early p l sp (idxNonzero0_union_of_allBg p l hp hl)⟩

/-- Witness for C1: both volumes the 4×4×4 all-background mask, spacing
(1, 1, 1); the constructed attributes are all `None`. -/
theorem c1_empty_surfaces_attributes_none_witness :
    calculate bg4 bg4 (1, 1, 1) = CalcResult.earlyReturn ⟨[], [], [], []⟩ ∧
    mkDistances bg4 bg4 (1, 1, 1) = ⟨none, none, none, none⟩ :=
  c1_empty_surfaces_attributes_none bg4 bg4 (1, 1, 1) rfl (by decide) (by decide)

/-- A 2×2×2 all-background mask. -/
def bg2 : Mask := ⟨2, 2, 2, fun _ _ _ => false⟩

/-- A 3×3×3 all-background mask. -/
def bg3 : Mask := ⟨3, 3, 3, fun _ _ _ => false⟩

/-- Counterexample to C5 as stated: after constructing `Distances` from
two all-background 2×2×2 masks, `distances_gt_to_pred` is `None` (the
early-return dict is discarded by `__init__`), not a non-decreasing
sequence. -/
theorem c5_sortedness_counterexample :
    (mkDistances bg2 bg2 (1, 1, 1)).distances_gt_to_pred = none ∧
    (mkDistances bg2 bg2 (1, 1, 1)).distances_pred_to_gt = none := by
  rw [mkDistances_early bg2 bg2 (1, 1, 1) (by decide)]
  exact ⟨rfl, rfl⟩

/-- C5 (amended): after every `Distances` construction whose union mask
is not entirely background, both `distances_gt_to_pred` and
`distances_pred_to_gt` are sequences and are non-decreasing; when the
union mask is entirely background the attributes remain `None`. -/
theorem c5_sortedness_amended (p l : Mask) (sp : ℝ × ℝ × ℝ)
    (hdim : p.dims = l.dims) (h : idxNonzero0 (unionMask p l) ≠ []) :
    ∃ xs ys, (mkDistances p l sp).distances_gt_to_pred = some xs ∧
      (mkDistances p l sp).distances_pred_to_gt = some ys ∧
      xs.Pairwise (· ≤ ·) ∧ ys.Pairwise (· ≤ ·) := by
  rw [mkDistances_main p l sp h]
  exact ⟨_, _, rfl, rfl, sortStage_fst_sorted _ _, sortStage_fst_sorted _ _⟩

/-- A 1×1×1 all-foreground mask. -/
def one1 : Mask := ⟨1, 1, 1, fun _ _ _ => true⟩

/-- Witness for C5 at two identical single-voxel masks, spacing (1, 1, 1). -/
theorem c5_sortedness_amended_witness :
    ∃ xs ys, (mkDistances one1 one1 (1, 1, 1)).distances_gt_to_pred = some xs ∧
      (mkDistances one1 one1 (1, 1, 1)).distances_pred_to_gt = some ys ∧
      xs.Pairwise (· ≤ ·) ∧ ys.Pairwise (· ≤ ·) :=
  c5_sortedness_amended one1 one1 (1, 1, 1) rfl (by decide)

theorem selectDists_length (src tgt : Mask) (sp : ℝ × ℝ × ℝ) :
    (selectDists src tgt sp).length = (selectAreas tgt sp).length := by
  unfold selectDists selectAreas
  rw [List.length_map, List.length_map]

/-- Counterexample to C6 as stated: after constructing `Distances` from
two all-background 3×3×3 masks, `distances_gt_to_pred` and
`surfel_areas_gt` are both `None`, so there are no sequences whose
lengths the stated equation could relate. -/
theorem c6_pairing_counterexample :
    (mkDistances bg3 bg3 (1, 1, 1)).distances_gt_to_pred = none ∧
    (mkDistances bg3 bg3 (1, 1, 1)).surfel_areas_gt = none := by
  rw [mkDistances_early bg3 bg3 (1, 1, 1) (by decide)]
  exact ⟨rfl, rfl⟩

/-- C6 (amended): after every `Distances` construction whose union mask
is not entirely background, the four attributes hold sequences and
`len(distances_gt_to_pred) = len(surfel_areas_gt)` and
`len(distances_pred_to_gt) = len(surfel_areas_pred)`; when the union mask
is entirely background the attributes remain `None`. -/
theorem c6_pairing_amended (p l : Mask) (sp : ℝ × ℝ × ℝ)
    (hdim : p.dims = l.dims) (h : idxNonzero0 (unionMask p l) ≠ []) :
    ∃ dg dp ag ap, (mkDistances p l sp).distances_gt_to_pred = some dg ∧
      (mkDistances p l sp).distances_pred_to_gt = some dp ∧
      (mkDistances p l sp).surfel_areas_gt = some ag ∧
      (mkDistances p l sp).surfel_areas_pred = some ap ∧
      dg.length = ag.length ∧ dp.length = ap.length := by
  rw [mkDistances_main p l sp h]
  refine ⟨_, _, _, _, rfl, rfl, rfl, rfl, ?_, ?_⟩
  · have hlen := sortStage_lengths
      (selectDists (cropPad p (unionMask p l)) (cropPad l (unionMask p l)) sp)
      (selectAreas (cropPad l (unionMask p l)) sp) (selectDists_length _ _ _)
    exact hlen.1.trans hlen.2.symm
  · have hlen := sortStage_lengths
      (selectDists (cropPad l (unionMask p l)) (cropPad p (unionMask p l)) sp)
      (selectAreas (cropPad p (unionMask p l)) sp) (selectDists_length _ _ _)
    exact hlen.1.trans hlen.2.symm

/-- A 1×2×1 mask with a single foreground voxel. -/
def oneOf2 : Mask := ⟨1, 2, 1, fun _ j _ => j == 0⟩

/-- Witness for C6 at a 1×2×1 single-voxel mask pair, spacing (1, 1, 1). -/
theorem c6_pairing_amended_witness :
    ∃ dg dp ag ap,
      (mkDistances oneOf2 oneOf2 (1, 1, 1)).distances_gt_to_pred = some dg ∧
      (mkDistances oneOf2 oneOf2 (1, 1, 1)).distances_pred_to_gt = some dp ∧
      (mkDistances oneOf2 oneOf2 (1, 1, 1)).surfel_areas_gt = some ag ∧
      (mkDistances oneOf2 oneOf2 (1, 1, 1)).surfel_areas_pred = some ap ∧
      dg.length = ag.length ∧ dp.length = ap.length :=
  c6_pairing_amended oneOf2 oneOf2 (1, 1, 1) rfl (by decide)

/-- C9: after every `Distances` construction (here: one whose union mask
is not entirely background, the only case in which the attributes hold
sequences at all), each side's (distance, area) pairs are sorted under
the lexicographic tuple order, so among entries with equal distance the
surfel areas are in non-decreasing order. -/
theorem c9_lex_tiebreak (p l : Mask) (sp : ℝ × ℝ × ℝ)
    (hdim : p.dims = l.dims) (h : idxNonzero0 (unionMask p l) ≠ []) :
    ∃ xs ys zs ws, (mkDistances p l sp).distances_gt_to_pred = some xs ∧
      (mkDistances p l sp).surfel_areas_gt = some zs ∧
      (mkDistances p l sp).distances_pred_to_gt = some ys ∧
      (mkDistances p l sp).surfel_areas_pred = some ws ∧
      (xs.zip zs).Pairwise (fun u v => u.1 = v.1 → u.2 ≤ v.2) ∧
      (ys.zip ws).Pairwise (fun u v => u.1 = v.1 → u.2 ≤ v.2) := by
  rw [mkDistances_main p l sp h]
  exact ⟨_, _, _, _, rfl, rfl, rfl, rfl,
    sortStage_zip_pairwise _ _, sortStage_zip_pairwise _ _⟩

/-- A 2×1×1 mask with a single foreground voxel. -/
def oneOf2a : Mask := ⟨2, 1, 1, fun i _ _ => i == 0⟩

/-- Witness for C9 at a 2×1×1 single-voxel mask pair, spacing (1, 1, 1). -/
theorem c9_lex_tiebreak_witness :
    ∃ xs ys zs ws,
      (mkDistances oneOf2a oneOf2a (1, 1, 1)).distances_gt_to_pred = some xs ∧
      (mkDistances oneOf2a oneOf2a (1, 1, 1)).surfel_areas_gt = some zs ∧
      (mkDistances oneOf2a oneOf2a (1, 1, 1)).distances_pred_to_gt = some ys ∧
      (mkDistances oneOf2a oneOf2a (1, 1, 1)).surfel_areas_pred = some ws ∧
      (xs.zip zs).Pairwise (fun u v => u.1 = v.1 → u.2 ≤ v.2) ∧
      (ys.zip ws).Pairwise (fun u v => u.1 = v.1 → u.2 ≤ v.2) :=
  c9_lex_tiebreak oneOf2a oneOf2a (1, 1, 1) rfl (by decide)

end Pymia

namespace Pymia

/-! ## Claims C3 and C4: the `ConfusionMatrix` constructor -/

theorem bcastAxis_self (a : ℕ) : bcastAxis a a = some a := by
  simp [bcastAxis]

theorem bcastDims_self (d : ℕ × ℕ × ℕ) : bcastDims d d = some d := by
  unfold bcastDims
  rw [bcastAxis_self, bcastAxis_self, bcastAxis_self]

theorem mkConfusionMatrix_ok (p l : LVol) (d : ℕ × ℕ × ℕ)
    (h : bcastDims p.dims l.dims = some d) :
    mkConfusionMatrix p l = Except.ok
      { tp := countVox d fun v =>
          p.bget v.1 v.2.1 v.2.2 == 1 && l.bget v.1 v.2.1 v.2.2 == 1
        tn := countVox d fun v =>
          p.bget v.1 v.2.1 v.2.2 == 0 && l.bget v.1 v.2.1 v.2.2 == 0
        fp := countVox d fun v =>
          p.bget v.1 v.2.1 v.2.2 == 1 && l.bget v.1 v.2.1 v.2.2 == 0
        fn := countVox d fun v =>
          p.bget v.1 v.2.1 v.2.2 == 0 && l.bget v.1 v.2.1 v.2.2 == 1
        n := p.size } := by
  unfold mkConfusionMatrix
  rw [h]

/-- A 1×1×1 volume of value 1. -/
def volOne111 : LVol := ⟨1, 1, 1, fun _ _ _ => 1⟩

/-- A 1×1×2 volume with values 1 and 0. -/
def volMix112 : LVol := ⟨1, 1, 2, fun _ _ k => if k = 0 then 1 else 0⟩

/-- Counterexample to C3 as stated: the 1×1×1 and 1×1×2 volumes have
different shapes, yet the shapes are broadcast-compatible, so numpy
broadcasts the elementwise counts and the `ConfusionMatrix` constructor
completes without any error - there is no fail-fast shape validation. -/
theorem c3_shape_mismatch_counterexample :
    volOne111.dims ≠ volMix112.dims ∧
    mkConfusionMatrix volOne111 volMix112 = Except.ok ⟨1, 0, 1, 0, 1⟩ := by
  refine ⟨by decide, ?_⟩
  rw [mkConfusionMatrix_ok volOne111 volMix112 (1, 1, 2) (by decide)]
  congr 1

/-- C3 (amended): constructing a `ConfusionMatrix` from volumes of
differing shape does not fail fast; whenever the two shapes are
broadcast-compatible the construction completes (the counts are taken
over the broadcast arrays), and an error arises only from numpy itself
when the shapes are not broadcast-compatible.  (`Distances` likewise
performs no up-front validation.) -/
theorem c3_no_fail_fast_amended (p l : LVol) (hne : p.dims ≠ l.dims)
    (d : ℕ × ℕ × ℕ) (h : bcastDims p.dims l.dims = some d) :
    (mkConfusionMatrix p l).isOk = true := by
  rw [mkConfusionMatrix_ok p l d h]
  rfl

/-- Witness for C3 at the 1×1×1 / 1×1×2 broadcast-compatible pair. -/
theorem c3_no_fail_fast_amended_witness :
    (mkConfusionMatrix volOne111 volMix112).isOk = true :=
  c3_no_fail_fast_amended volOne111 volMix112 (by decide) (1, 1, 2) (by decide)

/-- A 1×1×1 volume of value 2. -/
def volTwo111 : LVol := ⟨1, 1, 1, fun _ _ _ => 2⟩

/-- A 1×1×1 volume of value 0. -/
def volZero111 : LVol := ⟨1, 1, 1, fun _ _ _ => 0⟩

/-- Counterexample to C4 as stated: with the arbitrary content 2 in the
prediction, the voxel falls in none of the four counts (each compares
against 1 or 0), so tp + tn + fp + fn = 0 while n = 1. -/
theorem c4_arbitrary_contents_counterexample :
    mkConfusionMatrix volTwo111 volZero111 = Except.ok ⟨0, 0, 0, 0, 1⟩ ∧
    (0 + 0 + 0 + 0 : ℕ) ≠ 1 := by
  refine ⟨?_, by decide⟩
  rw [mkConfusionMatrix_ok volTwo111 volZero111 (1, 1, 1) (by decide)]
  congr 1

theorem mem_voxFinset {d : ℕ × ℕ × ℕ} {v : ℕ × ℕ × ℕ} :
    v ∈ voxFinset d ↔ v.1 < d.1 ∧ v.2.1 < d.2.1 ∧ v.2.2 < d.2.2 := by
  unfold voxFinset
  simp [Finset.mem_product, and_assoc]

theorem card_voxFinset (d : ℕ × ℕ × ℕ) :
    (voxFinset d).card = d.1 * d.2.1 * d.2.2 := by
  unfold voxFinset
  rw [Finset.card_product, Finset.card_product, Finset.card_range, Finset.card_range,
    Finset.card_range]
  ring

theorem binaryVol_bget (v : LVol) (hv : binaryVol v = true) (i j k : ℕ)
    (hi : i < v.n0) (hj : j < v.n1) (hk : k < v.n2) :
    v.bget i j k = 0 ∨ v.bget i j k = 1 := by
  simp only [binaryVol, List.all_eq_true, List.mem_range, Bool.or_eq_true,
    beq_iff_eq] at hv
  unfold LVol.bget
  have h0 : (if v.n0 = 1 then 0 else i) < v.n0 := by split <;> omega
  have h1 : (if v.n1 = 1 then 0 else j) < v.n1 := by split <;> omega
  have h2 : (if v.n2 = 1 then 0 else k) < v.n2 := by split <;> omega
  exact hv _ h0 _ h1 _ h2

/-- C4 (amended): for every pair of same-shaped prediction and label
volumes whose contents are binary indicators (values 0 or 1, the spec's
`BinaryVolume`), the constructor establishes tp + tn + fp + fn = n, the
total voxel count. -/
theorem c4_confusion_completeness_amended (p l : LVol) (hdim : p.dims = l.dims)
    (hp : binaryVol p = true) (hl : binaryVol l = true) :
    ∃ cm, mkConfusionMatrix p l = Except.ok cm ∧
      cm.tp + cm.tn + cm.fp + cm.fn = cm.n := by
  have hb : bcastDims p.dims l.dims = some p.dims := by
    rw [hdim]; exact bcastDims_self _
  refine ⟨_, mkConfusionMatrix_ok p l p.dims hb, ?_⟩
  have h0 : p.n0 = l.n0 := congrArg (fun d => d.1) hdim
  have h1 : p.n1 = l.n1 := congrArg (fun d => (d.2.1 : ℕ)) hdim
  have h2 : p.n2 = l.n2 := congrArg (fun d => (d.2.2 : ℕ)) hdim
  unfold countVox
  rw [Finset.card_filter, Finset.card_filter, Finset.card_filter, Finset.card_filter,
    ← Finset.sum_add_distrib, ← Finset.sum_add_distrib, ← Finset.sum_add_distrib]
  have hsize : (p.size : ℕ) = ∑ _v ∈ voxFinset p.dims, 1 := by
    rw [Finset.sum_const, smul_eq_mul, mul_one, card_voxFinset]
    rfl
  rw [hsize]
  apply Finset.sum_congr rfl
  intro v hv
  rw [mem_voxFinset] at hv
  have hpv := binaryVol_bget p hp v.1 v.2.1 v.2.2 hv.1 hv.2.1 hv.2.2
  have hlv := binaryVol_bget l hl v.1 v.2.1 v.2.2 (h0 ▸ hv.1) (h1 ▸ hv.2.1) (h2 ▸ hv.2.2)
  rcases hpv with hpe | hpe <;> rcases hlv with hle | hle <;> simp [hpe, hle]

/-- Witness for C4 at two identical binary 1×1×1 volumes. -/
theorem c4_confusion_completeness_amended_witness :
    ∃ cm, mkConfusionMatrix volOne111 volOne111 = Except.ok cm ∧
      cm.tp + cm.tn + cm.fp + cm.fn = cm.n :=
  c4_confusion_completeness_amended volOne111 volOne111 rfl (by decide) (by decide)

end Pymia

namespace Pymia

/-! ## Claim C2: Scenario B (single ground-truth voxel, empty prediction) -/

/-- Scenario B ground truth: a single foreground voxel at (2, 2, 2) in a
5×5×5 grid. -/
def gtCenter5 : Mask := ⟨5, 5, 5, fun i j k => i == 2 && j == 2 && k == 2⟩

/-- Scenario B prediction: the entirely background 5×5×5 mask. -/
def predBg5 : Mask := ⟨5, 5, 5, fun _ _ _ => false⟩

theorem sortStage_nil (a : List ℝ) : sortStage [] a = ([], a) := rfl

theorem sortStage_fst_replicate_top (n : ℕ) (hn : n ≠ 0) (a : List ℝ)
    (ha : a.length = n) :
    (sortStage (List.replicate n (⊤ : WithTop ℝ)) a).1 = List.replicate n ⊤ := by
  unfold sortStage
  rw [if_neg (by simp [hn])]
  rw [List.eq_replicate_iff]
  constructor
  · rw [List.length_map, sortPairs_length, List.length_zip, List.length_replicate, ha,
      min_self]
  · intro b hb
    rcases List.mem_map.mp hb with ⟨pr, hpr, rfl⟩
    have hmem : pr ∈ (List.replicate n (⊤ : WithTop ℝ)).zip a :=
      (sortPairs_perm _).subset hpr
    obtain ⟨x, y⟩ := pr
    exact List.eq_of_mem_replicate (List.of_mem_zip hmem).1

/-- The heart of Scenario B, for an arbitrary spacing: the prediction has
no surface voxels, so its distance transform is everywhere `inf`; the
eight ground-truth surface voxels therefore all read distance `inf`,
while the prediction side selects nothing at all. -/
theorem scenarioB (sp : ℝ × ℝ × ℝ) :
    (mkDistances predBg5 gtCenter5 sp).distances_pred_to_gt = some [] ∧
    (mkDistances predBg5 gtCenter5 sp).distances_gt_to_pred =
      some (List.replicate 8 (⊤ : WithTop ℝ)) := by
  have h : idxNonzero0 (unionMask predBg5 gtCenter5) ≠ [] := by decide
  have hbp : borderList (cropPad predBg5 (unionMask predBg5 gtCenter5)) = [] := by decide
  have hbg : borderList (cropPad gtCenter5 (unionMask predBg5 gtCenter5)) =
      [(0, 0, 0), (0, 0, 1), (0, 1, 0), (0, 1, 1),
       (1, 0, 0), (1, 0, 1), (1, 1, 0), (1, 1, 1)] := by decide
  rw [mkDistances_main predBg5 gtCenter5 sp h]
  have hsdPred : selectDists (cropPad gtCenter5 (unionMask predBg5 gtCenter5))
      (cropPad predBg5 (unionMask predBg5 gtCenter5)) sp = [] := by
    unfold selectDists
    rw [hbp]
    rfl
  have htop : ∀ v, distmapAt (cropPad predBg5 (unionMask predBg5 gtCenter5)) sp v =
      (⊤ : WithTop ℝ) := by
    intro v
    unfold distmapAt
    rw [if_pos hbp]
  have hsdGt : selectDists (cropPad predBg5 (unionMask predBg5 gtCenter5))
      (cropPad gtCenter5 (unionMask predBg5 gtCenter5)) sp =
      List.replicate 8 (⊤ : WithTop ℝ) := by
    unfold selectDists
    rw [hbg]
    simp [htop]
  have hlenA : (selectAreas (cropPad gtCenter5 (unionMask predBg5 gtCenter5)) sp).length
      = 8 := by
    unfold selectAreas
    rw [List.length_map, hbg]
    rfl
  constructor
  · rw [hsdPred, sortStage_nil]
  · rw [hsdGt, sortStage_fst_replicate_top 8 (by decide) _ hlenA]

/-- Counterexample to C2 as stated: at spacing (1, 1, 1),
`distances_pred_to_gt` is indeed empty, but `distances_gt_to_pred` is the
eight-fold repetition of `inf` (`⊤`), not a sequence of finite
distances - with no prediction surface, the prediction-side distance
transform is everywhere positive infinity. -/
theorem c2_scenario_b_counterexample :
    (mkDistances predBg5 gtCenter5 (1, 1, 1)).distances_gt_to_pred =
      some (List.replicate 8 (⊤ : WithTop ℝ)) ∧
    (⊤ : WithTop ℝ) ∈ List.replicate 8 (⊤ : WithTop ℝ) :=
  ⟨(scenarioB (1, 1, 1)).2, List.mem_replicate.mpr ⟨by decide, rfl⟩⟩

/-- C2 (amended): for the Scenario B input and any positive spacing, the
constructed `Distances` has `distances_pred_to_gt` empty and
`distances_gt_to_pred` equal to eight entries all of which are positive
infinity (not finite). -/
theorem c2_scenario_b_amended (s0 s1 s2 : ℝ) (h0 : 0 < s0) (h1 : 0 < s1)
    (h2 : 0 < s2) :
    (mkDistances predBg5 gtCenter5 (s0, s1, s2)).distances_pred_to_gt = some [] ∧
    (mkDistances predBg5 gtCenter5 (s0, s1, s2)).distances_gt_to_pred =
      some (List.replicate 8 (⊤ : WithTop ℝ)) :=
  scenarioB (s0, s1, s2)

/-- Witness for C2 at spacing (1, 1, 1). -/
theorem c2_scenario_b_amended_witness :
    (mkDistances predBg5 gtCenter5 (1, 1, 1)).distances_pred_to_gt = some [] ∧
    (mkDistances predBg5 gtCenter5 (1, 1, 1)).distances_gt_to_pred =
      some (List.replicate 8 (⊤ : WithTop ℝ)) :=
  c2_scenario_b_amended 1 1 1 (by norm_num) (by norm_num) (by norm_num)

end Pymia
